import Mathlib

/-!
# SDPSolver.h: solver status, parameters and termination reasons

A shallow embedding of `src/SDPSolver.h`.

The header works over `Real`, the arbitrary-precision number type declared in
`types.h`.  That declaration is not part of the sources.  Where rounding plays
no part the embedding takes the number type as a parameter `R` and the facts
are proved for every linearly ordered field, i.e. for exact arithmetic on
`Real` values; where it does, `Real` is modelled as binary floating point with
a given number of significant bits and correctly rounded operations.
-/

namespace SDPB

/-! ## Numeric helpers used by `dualityGap` -/

/-- The library `abs` on a number: a negative argument is negated, any other
argument is returned unchanged. -/
def absReal {R : Type} [LinearOrderedField R] (x : R) : R :=
  if x < 0 then -x else x

/-- The library `max` on two numbers (`std::max`): the second argument when the
first compares less than it, the first argument otherwise. -/
def maxReal {R : Type} [LinearOrderedField R] (a b : R) : R :=
  if a < b then b else a

/-! ## `SDPSolverStatus` -/

/-- The class `SDPSolverStatus`: the four numbers recomputed on every
iteration. -/
structure SDPSolverStatus (R : Type) where
  primalObjective : R
  dualObjective : R
  primalError : R
  dualError : R

/-- The method `SDPSolverStatus::dualityGap`:
`abs(primalObjective - dualObjective) /
   max(Real(abs(primalObjective) + abs(dualObjective)), Real(1))`. -/
def SDPSolverStatus.dualityGap {R : Type} [LinearOrderedField R]
    (s : SDPSolverStatus R) : R :=
  absReal (s.primalObjective - s.dualObjective) /
    maxReal (absReal s.primalObjective + absReal s.dualObjective) 1

/-! ## Finite-precision `Real`

`Real` is declared in `types.h`, which is not part of the sources.  The
parameters object gives it a "working numeric precision", and the design
document (section 1) assumes "a primitive numeric type with correctly-rounded
operations".  The definitions below model such a type on the rationals: a
binary floating-point format with `t` significant bits and no bound on the
exponent. -/

/-- The method `SDPSolverStatus::dualityGap` on a finite-precision `Real`: the
expression of the header with the result of each arithmetic operation (the
subtraction, the addition, the division) rounded by `rnd`; `abs`, `max` and the
constant `1` are exact. -/
def SDPSolverStatus.dualityGapRounded (rnd : ℚ → ℚ) (s : SDPSolverStatus ℚ) : ℚ :=
  rnd (absReal (rnd (s.primalObjective - s.dualObjective)) /
    maxReal (rnd (absReal s.primalObjective + absReal s.dualObjective)) 1)

/-! ## `SDPSolverParameters` -/

/-- The class `SDPSolverParameters`: ten integer and boolean options followed by
ten `Real`-valued ones, in the order of the header. -/
structure SDPSolverParameters (R : Type) where
  maxIterations : Int
  maxRuntime : Int
  checkpointInterval : Int
  noFinalCheckpoint : Bool
  findPrimalFeasible : Bool
  findDualFeasible : Bool
  detectPrimalFeasibleJump : Bool
  detectDualFeasibleJump : Bool
  precision : Int
  maxThreads : Int
  dualityGapThreshold : R
  primalErrorThreshold : R
  dualErrorThreshold : R
  initialMatrixScalePrimal : R
  initialMatrixScaleDual : R
  feasibleCenteringParameter : R
  infeasibleCenteringParameter : R
  stepLengthReduction : R
  choleskyStabilizeThreshold : R
  maxComplementarity : R

/-- The method `SDPSolverParameters::resetPrecision`: ten calls
`setPrecision(field, precision)`, one after the other, each updating one field
in place.  The helper `setPrecision(Real&, int)` is declared outside
`SDPSolver.h` and is taken as the parameter `setPrecision`, which maps the old
number and the requested precision to the new number. -/
def SDPSolverParameters.resetPrecision {R : Type} (setPrecision : R → Int → R)
    (p0 : SDPSolverParameters R) : SDPSolverParameters R :=
  let p1 := { p0 with
      dualityGapThreshold := setPrecision p0.dualityGapThreshold p0.precision }
  let p2 := { p1 with
      primalErrorThreshold := setPrecision p1.primalErrorThreshold p1.precision }
  let p3 := { p2 with
      dualErrorThreshold := setPrecision p2.dualErrorThreshold p2.precision }
  let p4 := { p3 with
      initialMatrixScalePrimal := setPrecision p3.initialMatrixScalePrimal p3.precision }
  let p5 := { p4 with
      initialMatrixScaleDual := setPrecision p4.initialMatrixScaleDual p4.precision }
  let p6 := { p5 with
      feasibleCenteringParameter := setPrecision p5.feasibleCenteringParameter p5.precision }
  let p7 := { p6 with
      infeasibleCenteringParameter := setPrecision p6.infeasibleCenteringParameter p6.precision }
  let p8 := { p7 with
      stepLengthReduction := setPrecision p7.stepLengthReduction p7.precision }
  let p9 := { p8 with
      choleskyStabilizeThreshold := setPrecision p8.choleskyStabilizeThreshold p8.precision }
  { p9 with maxComplementarity := setPrecision p9.maxComplementarity p9.precision }

/-- The `Real`-valued fields of a parameters object, in declaration order. -/
def SDPSolverParameters.realFields {R : Type} (p : SDPSolverParameters R) : List R :=
  [p.dualityGapThreshold, p.primalErrorThreshold, p.dualErrorThreshold,
   p.initialMatrixScalePrimal, p.initialMatrixScaleDual,
   p.feasibleCenteringParameter, p.infeasibleCenteringParameter,
   p.stepLengthReduction, p.choleskyStabilizeThreshold, p.maxComplementarity]

/-- Modelled from the spec: a `Real` as far as `resetPrecision` is concerned
(the declaration of `Real` in `types.h` is missing): a value together with its
"working numeric precision". -/
structure PrecisionReal where
  value : ℚ
  workingPrecision : Int
  deriving DecidableEq, Repr

/-- Modelled from the spec: the helper `setPrecision` (declared in the missing
`types.h`), which gives a number the requested working precision. -/
def PrecisionReal.setPrecision (x : PrecisionReal) (prec : Int) : PrecisionReal :=
  { x with workingPrecision := prec }

/-- A concrete parameters object whose numbers all start at working
precision 64 while the `precision` option asks for 400. -/
def sampleParameters : SDPSolverParameters PrecisionReal where
  maxIterations := 500
  maxRuntime := 86400
  checkpointInterval := 3600
  noFinalCheckpoint := false
  findPrimalFeasible := false
  findDualFeasible := false
  detectPrimalFeasibleJump := false
  detectDualFeasibleJump := false
  precision := 400
  maxThreads := 4
  dualityGapThreshold := ⟨1 / 1000, 64⟩
  primalErrorThreshold := ⟨1 / 1000, 64⟩
  dualErrorThreshold := ⟨1 / 1000, 64⟩
  initialMatrixScalePrimal := ⟨100, 64⟩
  initialMatrixScaleDual := ⟨100, 64⟩
  feasibleCenteringParameter := ⟨1 / 10, 64⟩
  infeasibleCenteringParameter := ⟨3 / 10, 64⟩
  stepLengthReduction := ⟨7 / 10, 64⟩
  choleskyStabilizeThreshold := ⟨1 / 100, 64⟩
  maxComplementarity := ⟨1000, 64⟩

/-! ## `SDPSolverTerminateReason` -/

/-- The enumeration `SDPSolverTerminateReason`, enumerators in the order of the
header. -/
inductive SDPSolverTerminateReason where
  | PrimalDualOptimal
  | PrimalFeasible
  | DualFeasible
  | PrimalFeasibleJumpDetected
  | DualFeasibleJumpDetected
  | MaxComplementarityExceeded
  | MaxIterationsExceeded
  | MaxRuntimeExceeded
  deriving DecidableEq, Repr, Fintype

/-- The integer value of an enumerator: no enumerator has an initializer, so the
first is `0` and each next one is one more than the one before it. -/
def SDPSolverTerminateReason.value : SDPSolverTerminateReason → Nat
  | .PrimalDualOptimal => 0
  | .PrimalFeasible => 1
  | .DualFeasible => 2
  | .PrimalFeasibleJumpDetected => 3
  | .DualFeasibleJumpDetected => 4
  | .MaxComplementarityExceeded => 5
  | .MaxIterationsExceeded => 6
  | .MaxRuntimeExceeded => 7

/-! ## The main loop `SDPSolver::run`

Only the declaration
`SDPSolverTerminateReason run(const SDPSolverParameters &parameters, const path checkpointFile)`
is in `SDPSolver.h`; the body is in a file that is not part of the sources.
The loop is therefore modelled from the design document: section 4.3 (the
passes of the loop and the termination tests), sections 4.1 and 7(d) (the
retry of an iteration after a numerical failure), section 4.4 (checkpoint
saves) and section 7(e) (a failed checkpoint write aborts the run). -/

/-- Modelled from the spec: the numerical work behind one pass of the main loop,
whose code (the body of `SDPSolver::run` and the linear algebra it calls) is
missing.  `S` is the solver's iterate state and `C` what a checkpoint file
holds.  `status` is the "snapshot recomputed every iteration", `mu` the
complementarity, `primalJump` and `dualJump` say whether the primal (dual)
error crossed its threshold in one step.  `step p n s` computes the predictor
and corrector directions, selects the step lengths and applies the accepted
step, after `n` forced step-length reductions of this iteration; `none` is the
"numerical failure for this iteration" reported upward when the stabilization
capacity is exceeded.  `snapshot k s` is the "persisted snapshot of (x, X, y,
Y, iteration index)". -/
structure IterationEngine (R : Type) (S : Type) (C : Type) where
  status : S → SDPSolverStatus R
  mu : S → R
  primalJump : S → Bool
  dualJump : S → Bool
  step : SDPSolverParameters R → Nat → S → Option S
  snapshot : Nat → S → C

/-- Modelled from the spec: the termination conditions of one pass of the main
loop (the body of `SDPSolver::run` is missing), tested "in a fixed priority
order": duality gap and both errors below their thresholds; primal error below
its threshold with `findPrimalFeasible` configured (a detected jump giving
`PrimalFeasibleJumpDetected` instead, if enabled); the same for the dual side;
`mu` exceeding `maxComplementarity`; iteration budget exceeded; elapsed-time
budget exceeded.  `none` means that no condition triggers. -/
def terminationTest {R S C : Type} [LinearOrderedField R] (E : IterationEngine R S C)
    (p : SDPSolverParameters R) (iteration : Nat) (elapsed : Int) (s : S) :
    Option SDPSolverTerminateReason :=
  if (E.status s).dualityGap < p.dualityGapThreshold ∧
      (E.status s).primalError < p.primalErrorThreshold ∧
      (E.status s).dualError < p.dualErrorThreshold then
    some .PrimalDualOptimal
  else if (E.status s).primalError < p.primalErrorThreshold ∧
      p.findPrimalFeasible = true then
    (if p.detectPrimalFeasibleJump = true ∧ E.primalJump s = true then
      some .PrimalFeasibleJumpDetected
    else some .PrimalFeasible)
  else if (E.status s).dualError < p.dualErrorThreshold ∧
      p.findDualFeasible = true then
    (if p.detectDualFeasibleJump = true ∧ E.dualJump s = true then
      some .DualFeasibleJumpDetected
    else some .DualFeasible)
  else if p.maxComplementarity < E.mu s then
    some .MaxComplementarityExceeded
  else if p.maxIterations < (iteration : Int) then
    some .MaxIterationsExceeded
  else if p.maxRuntime < elapsed then
    some .MaxRuntimeExceeded
  else none

/-- Modelled from the spec: the files the run can see: what each path holds, if
anything, and whether it can be written. -/
structure FileSystem (C : Type) where
  contents : String → Option C
  writable : String → Bool

/-- Modelled from the spec: the "I/O failures (checkpoint read/write)" that are
"surfaced to the caller as a hard failure aborting the run". -/
inductive CheckpointFailure where
  | cannotWrite
  | cannotRead
  | malformed
  | structureMismatch
  deriving DecidableEq, Repr

/-- Modelled from the spec: writing a checkpoint file (the file operations are
not part of the sources): the file at `file` is replaced by `c`; a path that
cannot be written is a hard failure. -/
def writeFile {C : Type} (fs : FileSystem C) (file : String) (c : C) :
    Except CheckpointFailure (FileSystem C) :=
  if fs.writable file = true then
    .ok { fs with contents := fun f => if f = file then some c else fs.contents f }
  else .error .cannotWrite

/-- Modelled from the spec: the state of the main loop of `SDPSolver::run` (body
missing) at the start of a pass: the index of the iteration being attempted, the number of forced step-length reductions of that
iteration so far, the number of passes made so far (which is also the index of
the clock reading of this pass), the iterate state and the files. -/
structure LoopState (S : Type) (C : Type) where
  iteration : Nat
  reductions : Nat
  pass : Nat
  state : S
  files : FileSystem C

/-- Modelled from the spec: how a call of `SDPSolver::run` (body missing) ends:
with a termination reason, or aborted by a checkpoint failure; either way with
the loop state it ended in. -/
inductive RunOutcome (S : Type) (C : Type) where
  | terminated (reason : SDPSolverTerminateReason) (final : LoopState S C)
  | aborted (failure : CheckpointFailure) (final : LoopState S C)

/-- The loop state a run ended in. -/
def RunOutcome.final {S C : Type} : RunOutcome S C → LoopState S C
  | .terminated _ final => final
  | .aborted _ final => final

/-- The termination reason a run returned, if it returned one. -/
def RunOutcome.reason {S C : Type} : RunOutcome S C → Option SDPSolverTerminateReason
  | .terminated r _ => some r
  | .aborted _ _ => none

/-- Modelled from the spec: "Saves occur on a configured iteration interval":
a save is due at the first attempt of every iteration whose index is a
multiple of a positive `checkpointInterval`. -/
def checkpointDue {R S C : Type} (p : SDPSolverParameters R) (st : LoopState S C) : Bool :=
  decide (st.reductions = 0 ∧ 0 < p.checkpointInterval ∧
    (st.iteration : Int) % p.checkpointInterval = 0)

/-- Modelled from the spec: the periodic checkpoint save at the start of a
pass. -/
def periodicSave {R S C : Type} (E : IterationEngine R S C) (p : SDPSolverParameters R)
    (checkpointFile : String) (st : LoopState S C) : Except CheckpointFailure (FileSystem C) :=
  if checkpointDue p st = true then
    writeFile st.files checkpointFile (E.snapshot st.iteration st.state)
  else .ok st.files

/-- Modelled from the spec: the exit of the loop with reason `r`: "unless
disabled, once more immediately before the loop exits for any reason" a
checkpoint is saved, and a failed save aborts the run. -/
def exitLoop {R S C : Type} (E : IterationEngine R S C) (p : SDPSolverParameters R)
    (checkpointFile : String) (st : LoopState S C) (r : SDPSolverTerminateReason) :
    RunOutcome S C :=
  if p.noFinalCheckpoint = true then .terminated r st
  else
    match writeFile st.files checkpointFile (E.snapshot st.iteration st.state) with
    | .ok files => .terminated r { st with files := files }
    | .error failure => .aborted failure st

/-- Modelled from the spec: one pass of the main loop of `SDPSolver::run` (body
missing).  The periodic checkpoint is saved if due; the termination conditions
are tested with the clock reading of this pass; if one triggers the loop
exits, otherwise the step is attempted.  An applied step starts the next
iteration; a numerical failure forces a step-length reduction and a retry of
the same iteration in the next pass. -/
def loopPass {R S C : Type} [LinearOrderedField R] (E : IterationEngine R S C)
    (p : SDPSolverParameters R) (checkpointFile : String) (clock : Nat → Int)
    (st : LoopState S C) : RunOutcome S C ⊕ LoopState S C :=
  match periodicSave E p checkpointFile st with
  | .error failure => .inl (.aborted failure st)
  | .ok files =>
    match terminationTest E p st.iteration (clock st.pass) st.state with
    | some r => .inl (exitLoop E p checkpointFile { st with files := files } r)
    | none =>
      match E.step p st.reductions st.state with
      | some s => .inr ⟨st.iteration + 1, 0, st.pass + 1, s, files⟩
      | none => .inr ⟨st.iteration, st.reductions + 1, st.pass + 1, st.state, files⟩

/-- Modelled from the spec: the main loop of `SDPSolver::run` (body missing),
run for at most `fuel` passes: `none` means that the loop has not exited
within `fuel` passes. -/
def runPasses {R S C : Type} [LinearOrderedField R] (E : IterationEngine R S C)
    (p : SDPSolverParameters R) (checkpointFile : String) (clock : Nat → Int) :
    Nat → LoopState S C → Option (RunOutcome S C)
  | 0, _ => none
  | fuel + 1, st =>
    match loopPass E p checkpointFile clock st with
    | .inl out => some out
    | .inr next => runPasses E p checkpointFile clock fuel next

/-- Modelled from the spec: `SDPSolver::run(parameters, checkpointFile)` (body
missing), observed for at most `fuel` passes.  `clock k` is the elapsed
wall-clock time read by pass `k` and `files` the files at the start; `start`
and `s` are the iteration counter and the iterate state that the solver object
holds when `run` is called (`start` is `1` for a fresh run, the restored
counter after a checkpoint was loaded). -/
def run {R S C : Type} [LinearOrderedField R] (E : IterationEngine R S C)
    (p : SDPSolverParameters R) (checkpointFile : String) (clock : Nat → Int)
    (files : FileSystem C) (start : Nat) (s : S) (fuel : Nat) : Option (RunOutcome S C) :=
  runPasses E p checkpointFile clock fuel ⟨start, 0, 0, s, files⟩

theorem absReal_eq_abs {R : Type} [LinearOrderedField R] (x : R) :
    absReal x = |x| := by
  unfold absReal
  split_ifs with h
  · exact (abs_of_neg h).symm
  · exact (abs_of_nonneg (not_lt.mp h)).symm

theorem maxReal_eq_max {R : Type} [LinearOrderedField R] (a b : R) :
    maxReal a b = max a b := by
  unfold maxReal
  split_ifs with h
  · exact (max_eq_right h.le).symm
  · exact (max_eq_left (not_lt.mp h)).symm

theorem dualityGap_eq {R : Type} [LinearOrderedField R] (s : SDPSolverStatus R) :
    s.dualityGap =
      |s.primalObjective - s.dualObjective| /
        max (|s.primalObjective| + |s.dualObjective|) 1 := by
  simp only [SDPSolverStatus.dualityGap, absReal_eq_abs, maxReal_eq_max]

theorem divisor_pos {R : Type} [LinearOrderedField R] (p d : R) :
    0 < max (|p| + |d|) 1 :=
  lt_of_lt_of_le one_pos (le_max_right _ _)

theorem dualityGapRounded_id (s : SDPSolverStatus ℚ) :
    s.dualityGapRounded id = s.dualityGap := rfl

/-- C1: for every pair of objectives `p`, `d`, `dualityGap` returns exactly
`|p - d| / max (|p| + |d|) 1`, whatever `primalError` and `dualError` hold: two
statuses with the same objectives have the same duality gap. -/
theorem dualityGap_formula {R : Type} [LinearOrderedField R]
    (p d primalError dualError : R) :
    (SDPSolverStatus.mk p d primalError dualError).dualityGap =
        |p - d| / max (|p| + |d|) 1 ∧
      ∀ primalError2 dualError2 : R,
        (SDPSolverStatus.mk p d primalError2 dualError2).dualityGap =
          (SDPSolverStatus.mk p d primalError dualError).dualityGap := by
  refine ⟨dualityGap_eq _, ?_⟩
  intro e1 e2
  rw [dualityGap_eq, dualityGap_eq]

/-- C2: `dualityGap` is symmetric in its two objectives: exchanging
`primalObjective` and `dualObjective` leaves the duality gap unchanged. -/
theorem dualityGap_symmetric {R : Type} [LinearOrderedField R]
    (p d e1 e2 e3 e4 : R) :
    (SDPSolverStatus.mk p d e1 e2).dualityGap =
      (SDPSolverStatus.mk d p e3 e4).dualityGap := by
  rw [dualityGap_eq, dualityGap_eq]
  simp only
  rw [abs_sub_comm p d, add_comm |p| |d|]

/-- C3: when `p = d` and `|p| + |d| ≥ 1`, the duality gap of a status with
objectives `p` and `d` is `0`. -/
theorem dualityGap_eq_zero_of_eq {R : Type} [LinearOrderedField R]
    (p d e1 e2 : R) (hpd : p = d) (_hscale : 1 ≤ |p| + |d|) :
    (SDPSolverStatus.mk p d e1 e2).dualityGap = 0 := by
  rw [dualityGap_eq]
  simp only
  rw [hpd, sub_self, abs_zero, zero_div]

theorem dualityGap_eq_zero_of_eq_witness :
    ((2 : ℚ) = 2 ∧ (1 : ℚ) ≤ |2| + |2|) ∧
      (SDPSolverStatus.mk (2 : ℚ) 2 (1 / 3) 5).dualityGap = 0 :=
  ⟨⟨rfl, by norm_num⟩, dualityGap_eq_zero_of_eq 2 2 (1 / 3) 5 rfl (by norm_num)⟩

/-- C9: for all objectives the duality gap lies in the closed interval
`[0, 1]`: the divisor `max (|p| + |d|) 1` is at least `1` (so it is never zero)
and `|p - d| ≤ |p| + |d|` bounds the quotient by `1`. -/
theorem dualityGap_mem_unit_interval {R : Type} [LinearOrderedField R]
    (p d e1 e2 : R) :
    1 ≤ maxReal (absReal p + absReal d) 1 ∧
      maxReal (absReal p + absReal d) 1 ≠ 0 ∧
      |p - d| ≤ |p| + |d| ∧
      0 ≤ (SDPSolverStatus.mk p d e1 e2).dualityGap ∧
      (SDPSolverStatus.mk p d e1 e2).dualityGap ≤ 1 := by
  have hpos := divisor_pos p d
  have htri : |p - d| ≤ |p| + |d| := abs_sub p d
  refine ⟨?_, ?_, htri, ?_, ?_⟩
  · rw [maxReal_eq_max]
    exact le_max_right _ _
  · rw [maxReal_eq_max, absReal_eq_abs, absReal_eq_abs]
    exact hpos.ne'
  · rw [dualityGap_eq]
    exact div_nonneg (abs_nonneg _) hpos.le
  · rw [dualityGap_eq]
    simp only
    rw [div_le_one hpos]
    exact le_trans htri (le_max_left _ _)

/-- C10: the duality gap vanishes only at equal objectives: if the gap of
`(p, d)` is `0` then `p = d`, with no condition on `|p| + |d|`. -/
theorem eq_of_dualityGap_eq_zero {R : Type} [LinearOrderedField R]
    (p d e1 e2 : R) (h : (SDPSolverStatus.mk p d e1 e2).dualityGap = 0) :
    p = d := by
  rw [dualityGap_eq] at h
  simp only at h
  rcases div_eq_zero_iff.mp h with h0 | h0
  · exact sub_eq_zero.mp (abs_eq_zero.mp h0)
  · exact absurd h0 (divisor_pos p d).ne'

theorem eq_of_dualityGap_eq_zero_witness :
    (SDPSolverStatus.mk (1 / 7 : ℚ) (1 / 7) 3 4).dualityGap = 0 ∧ (1 / 7 : ℚ) = 1 / 7 := by
  have h : (SDPSolverStatus.mk (1 / 7 : ℚ) (1 / 7) 3 4).dualityGap = 0 := by
    rw [dualityGap_eq]
    simp
  exact ⟨h, eq_of_dualityGap_eq_zero (1 / 7) (1 / 7) 3 4 h⟩

/-! ## Theorems about `SDPSolverTerminateReason` -/

open SDPSolverTerminateReason in
/-- C4: `SDPSolverTerminateReason` is a closed set of exactly eight
pairwise-distinct tags: the type has eight values, the eight named tags are
pairwise distinct and carry pairwise distinct integer values (exactly the
values `0` to `7`), and every value of the type (hence every value a function
with the return type of `SDPSolver::run` returns) is exactly one of the
eight. -/
theorem terminateReason_closed :
    Fintype.card SDPSolverTerminateReason = 8 ∧
      [PrimalDualOptimal, PrimalFeasible, DualFeasible, PrimalFeasibleJumpDetected,
        DualFeasibleJumpDetected, MaxComplementarityExceeded, MaxIterationsExceeded,
        MaxRuntimeExceeded].Nodup ∧
      (∀ a b : SDPSolverTerminateReason, a.value = b.value → a = b) ∧
      (∀ n : Nat, n < 8 ↔ ∃ a : SDPSolverTerminateReason, a.value = n) ∧
      ∀ (Args : Type) (run : Args → SDPSolverTerminateReason) (args : Args),
        List.count (run args)
          [PrimalDualOptimal, PrimalFeasible, DualFeasible, PrimalFeasibleJumpDetected,
            DualFeasibleJumpDetected, MaxComplementarityExceeded, MaxIterationsExceeded,
            MaxRuntimeExceeded] = 1 := by
  refine ⟨rfl, by decide, by decide, ?_, ?_⟩
  · intro n
    constructor
    · intro hn
      interval_cases n
      · exact ⟨PrimalDualOptimal, rfl⟩
      · exact ⟨PrimalFeasible, rfl⟩
      · exact ⟨DualFeasible, rfl⟩
      · exact ⟨PrimalFeasibleJumpDetected, rfl⟩
      · exact ⟨DualFeasibleJumpDetected, rfl⟩
      · exact ⟨MaxComplementarityExceeded, rfl⟩
      · exact ⟨MaxIterationsExceeded, rfl⟩
      · exact ⟨MaxRuntimeExceeded, rfl⟩
    · rintro ⟨a, rfl⟩
      cases a <;> decide
  · intro Args run args
    cases run args <;> decide

/-! ## Theorems about `resetPrecision` -/

/-- C5: `resetPrecision` applies the configured precision to all threshold
fields.  Given that `setPrecision x n` returns a number whose working precision
is `n`, after `resetPrecision` each of the ten `Real`-valued fields has working
precision equal to the `precision` field; the `precision` field and the other
integer and boolean fields are unchanged. -/
theorem resetPrecision_all_fields {R : Type} (setPrecision : R → Int → R)
    (getPrecision : R → Int)
    (hset : ∀ (x : R) (n : Int), getPrecision (setPrecision x n) = n)
    (p : SDPSolverParameters R) :
    (getPrecision (p.resetPrecision setPrecision).dualityGapThreshold =
        (p.resetPrecision setPrecision).precision ∧
      getPrecision (p.resetPrecision setPrecision).primalErrorThreshold =
        (p.resetPrecision setPrecision).precision ∧
      getPrecision (p.resetPrecision setPrecision).dualErrorThreshold =
        (p.resetPrecision setPrecision).precision ∧
      getPrecision (p.resetPrecision setPrecision).initialMatrixScalePrimal =
        (p.resetPrecision setPrecision).precision ∧
      getPrecision (p.resetPrecision setPrecision).initialMatrixScaleDual =
        (p.resetPrecision setPrecision).precision ∧
      getPrecision (p.resetPrecision setPrecision).feasibleCenteringParameter =
        (p.resetPrecision setPrecision).precision ∧
      getPrecision (p.resetPrecision setPrecision).infeasibleCenteringParameter =
        (p.resetPrecision setPrecision).precision ∧
      getPrecision (p.resetPrecision setPrecision).stepLengthReduction =
        (p.resetPrecision setPrecision).precision ∧
      getPrecision (p.resetPrecision setPrecision).choleskyStabilizeThreshold =
        (p.resetPrecision setPrecision).precision ∧
      getPrecision (p.resetPrecision setPrecision).maxComplementarity =
        (p.resetPrecision setPrecision).precision) ∧
    (∀ x ∈ (p.resetPrecision setPrecision).realFields,
      getPrecision x = (p.resetPrecision setPrecision).precision) ∧
    (p.resetPrecision setPrecision).precision = p.precision ∧
    (p.resetPrecision setPrecision).maxIterations = p.maxIterations ∧
    (p.resetPrecision setPrecision).maxRuntime = p.maxRuntime ∧
    (p.resetPrecision setPrecision).checkpointInterval = p.checkpointInterval ∧
    (p.resetPrecision setPrecision).noFinalCheckpoint = p.noFinalCheckpoint ∧
    (p.resetPrecision setPrecision).findPrimalFeasible = p.findPrimalFeasible ∧
    (p.resetPrecision setPrecision).findDualFeasible = p.findDualFeasible ∧
    (p.resetPrecision setPrecision).detectPrimalFeasibleJump = p.detectPrimalFeasibleJump ∧
    (p.resetPrecision setPrecision).detectDualFeasibleJump = p.detectDualFeasibleJump ∧
    (p.resetPrecision setPrecision).maxThreads = p.maxThreads := by
  have key : ∀ x ∈ (p.resetPrecision setPrecision).realFields,
      getPrecision x = (p.resetPrecision setPrecision).precision := by
    intro x hx
    simp only [SDPSolverParameters.realFields, SDPSolverParameters.resetPrecision,
      List.mem_cons, List.mem_singleton, List.not_mem_nil, or_false] at hx
    rcases hx with h | h | h | h | h | h | h | h | h | h <;>
      (rw [h]; exact hset _ _)
  have mem : ∀ i : Fin 10, (p.resetPrecision setPrecision).realFields.get
      ⟨i.1, by simp [SDPSolverParameters.realFields]⟩ ∈
        (p.resetPrecision setPrecision).realFields := fun i => List.get_mem _ _ _
  exact ⟨⟨key _ (mem 0), key _ (mem 1), key _ (mem 2), key _ (mem 3), key _ (mem 4),
      key _ (mem 5), key _ (mem 6), key _ (mem 7), key _ (mem 8), key _ (mem 9)⟩,
    key, by simp [SDPSolverParameters.resetPrecision],
    by simp [SDPSolverParameters.resetPrecision],
    by simp [SDPSolverParameters.resetPrecision],
    by simp [SDPSolverParameters.resetPrecision],
    by simp [SDPSolverParameters.resetPrecision],
    by simp [SDPSolverParameters.resetPrecision],
    by simp [SDPSolverParameters.resetPrecision],
    by simp [SDPSolverParameters.resetPrecision],
    by simp [SDPSolverParameters.resetPrecision],
    by simp [SDPSolverParameters.resetPrecision]⟩

theorem resetPrecision_all_fields_witness :
    (∀ (x : PrecisionReal) (n : Int),
        PrecisionReal.workingPrecision (PrecisionReal.setPrecision x n) = n) ∧
      ((sampleParameters.resetPrecision PrecisionReal.setPrecision).realFields.map
          PrecisionReal.workingPrecision = List.replicate 10 400) ∧
      ∀ x ∈ (sampleParameters.resetPrecision PrecisionReal.setPrecision).realFields,
        PrecisionReal.workingPrecision x =
          (sampleParameters.resetPrecision PrecisionReal.setPrecision).precision :=
  ⟨fun _ _ => rfl, by simp [SDPSolverParameters.realFields, SDPSolverParameters.resetPrecision, sampleParameters, PrecisionReal.setPrecision],
    (resetPrecision_all_fields PrecisionReal.setPrecision PrecisionReal.workingPrecision
      (fun _ _ => rfl) sampleParameters).2.1⟩

/-! ## Theorems about checkpoints -/

end SDPB
